import Mathlib

/-!
# Crash reporter (ATmega328P black box): embedding of `src/main.c`

The C program is embedded as pure functions over an explicit machine state.
Machine integers are natural numbers; every conversion to `uint8_t` is an
explicit `% 256`, every conversion to `uint16_t` an explicit `% 65536`.

Hardware that the C source only drives through registers is modelled as follows.

* EEPROM: a byte store `eeprom : Nat → Nat`, addressed by the register pair
  `EEARH:EEARL`.  Setting `EEMPE` then `EEPE` in `EECR` programs the byte in
  `EEDR` at that address; setting `EERE` loads the addressed byte into `EEDR`.
  The busy-wait on `EEPE` ends when the hardware clears the bit.
* Global interrupt enable: the field `SREG_I`, changed by `cli` and `sei`.
* UART: the transmitted text is accumulated in `uart`; the receive side is the
  argument of the command-loop step.  Delays have no effect on the state.
* An event trace records, in program order, every `cli`, `sei`, `wdr`, every
  EEPROM programming strobe and every call of `print_crash_analysis`.
-/

namespace CrashReporter

/-! ## Data model -/

/-- The C struct `CrashReport_t`. -/
structure CrashReport_t where
  crash_flag : Nat
  crash_reason : Nat
  stack_pointer_val : Nat
  mcusr_mirror : Nat
deriving DecidableEq

def CRASH_FLAG_SET : Nat := 0xDE
def CRASH_FLAG_CLEAR : Nat := 0x00

def CRASH_REASON_NONE : Nat := 0x00
def CRASH_REASON_WDT : Nat := 0x01
def CRASH_REASON_EXPLICIT : Nat := 0x02
def CRASH_REASON_STACK_OVF : Nat := 0x03
def CRASH_REASON_UNKNOWN : Nat := 0xFF

def EEPROM_CRASH_REPORT_ADDR : Nat := 0x0000

/-- Bit positions of `MCUSR` and `WDTCSR` (from `avr/io.h`, ATmega328P). -/
def PORF : Nat := 0
def EXTRF : Nat := 1
def BORF : Nat := 2
def WDRF : Nat := 3
def WDP0 : Nat := 0
def WDP1 : Nat := 1
def WDP2 : Nat := 2
def WDE : Nat := 3
def WDCE : Nat := 4
def WDIE : Nat := 6
def RAMEND : Nat := 0x08FF

/-- Observable events, in program order. -/
inductive Event where
  | cli
  | sei
  | wdr
  | eeprom_write (address data : Nat)
  | crash_analysis (report : CrashReport_t)
deriving DecidableEq

/-- Machine state seen by the program. -/
structure Machine where
  eeprom : Nat → Nat
  EEARH : Nat
  EEARL : Nat
  EEDR : Nat
  EEPE : Bool
  MCUSR : Nat
  WDTCSR : Nat
  SPL : Nat
  SPH : Nat
  SREG_I : Bool
  uart : String
  trace : List Event

/-! ## Interrupt flag -/

def cli (st : Machine) : Machine :=
  { st with SREG_I := false, trace := st.trace ++ [Event.cli] }

def sei (st : Machine) : Machine :=
  { st with SREG_I := true, trace := st.trace ++ [Event.sei] }

/-! ## EEPROM driver -/

/-- The loop `while (EECR & (1 << EEPE)) {}`: it ends once the hardware has
cleared `EEPE`, that is when the programming in progress has completed. -/
def eeprom_wait_ready (st : Machine) : Machine :=
  { st with EEPE := false }

/-- The strobe `EECR |= (1 << EEMPE); EECR |= (1 << EEPE);`: the byte in `EEDR`
is programmed at address `EEARH:EEARL`. -/
def eeprom_program (st : Machine) : Machine :=
  { st with
    eeprom := fun a => if a = st.EEARH * 256 + st.EEARL then st.EEDR else st.eeprom a
    EEPE := true
    trace := st.trace ++ [Event.eeprom_write (st.EEARH * 256 + st.EEARL) st.EEDR] }

def EEPROM_write (address data : Nat) (st : Machine) : Machine :=
  let st := eeprom_wait_ready st
  let st := { st with EEARH := ((address % 65536) >>> 8) % 256 }
  let st := { st with EEARL := (address % 65536) % 256 }
  let st := { st with EEDR := data % 256 }
  let st := cli st
  let st := eeprom_program st
  sei st

def EEPROM_read (address : Nat) (st : Machine) : Nat × Machine :=
  let st := eeprom_wait_ready st
  let st := { st with EEARH := ((address % 65536) >>> 8) % 256 }
  let st := { st with EEARL := (address % 65536) % 256 }
  let st := { st with EEDR := st.eeprom (st.EEARH * 256 + st.EEARL) }
  (st.EEDR, st)

/-! ## Capture and load -/

def get_stack_pointer (st : Machine) : Nat :=
  let sp_low := st.SPL % 256
  let sp_high := st.SPH % 256
  (((sp_high <<< 8) % 65536) ||| sp_low) % 65536

def save_crash_dump (reason : Nat) (st : Machine) : Machine :=
  let report : CrashReport_t :=
    { stack_pointer_val := get_stack_pointer st
      crash_reason := reason % 256
      crash_flag := CRASH_FLAG_SET
      mcusr_mirror := st.MCUSR % 256 }
  let st := cli st
  let st := EEPROM_write (EEPROM_CRASH_REPORT_ADDR + 0) report.crash_flag st
  let st := EEPROM_write (EEPROM_CRASH_REPORT_ADDR + 1) report.crash_reason st
  let st := EEPROM_write (EEPROM_CRASH_REPORT_ADDR + 2) ((report.stack_pointer_val &&& 0xFF) % 256) st
  let st := EEPROM_write (EEPROM_CRASH_REPORT_ADDR + 3) ((report.stack_pointer_val >>> 8) % 256) st
  let st := EEPROM_write (EEPROM_CRASH_REPORT_ADDR + 4) report.mcusr_mirror st
  eeprom_wait_ready st

/-- The function `load_crash_report`: the return value, the record written
through the pointer argument, and the machine afterwards. -/
def load_crash_report (st : Machine) : Nat × CrashReport_t × Machine :=
  let (crash_flag, st) := EEPROM_read (EEPROM_CRASH_REPORT_ADDR + 0) st
  let (crash_reason, st) := EEPROM_read (EEPROM_CRASH_REPORT_ADDR + 1) st
  let (sp_low, st) := EEPROM_read (EEPROM_CRASH_REPORT_ADDR + 2) st
  let (sp_high, st) := EEPROM_read (EEPROM_CRASH_REPORT_ADDR + 3) st
  let stack_pointer_val := (((sp_high % 65536) <<< 8) % 65536 ||| sp_low) % 65536
  let (mcusr_mirror, st) := EEPROM_read (EEPROM_CRASH_REPORT_ADDR + 4) st
  let report : CrashReport_t :=
    { crash_flag := crash_flag
      crash_reason := crash_reason
      stack_pointer_val := stack_pointer_val
      mcusr_mirror := mcusr_mirror }
  ((if report.crash_flag = CRASH_FLAG_SET then 1 else 0), report, st)

def clear_crash_flag (st : Machine) : Machine :=
  EEPROM_write EEPROM_CRASH_REPORT_ADDR CRASH_FLAG_CLEAR st

/-- A machine with erased EEPROM (every cell `0xFF`), used for concrete runs. -/
def erased : Machine :=
  { eeprom := fun _ => 0xFF
    EEARH := 0, EEARL := 0, EEDR := 0, EEPE := false
    MCUSR := 0x08, WDTCSR := 0
    SPL := 0xF0, SPH := 0x08
    SREG_I := true, uart := "", trace := [] }

/-! ## UART text output

The transmit side is modelled at the level of the text sent: each function
maps the text transmitted so far to the text transmitted afterwards. -/

/-- The string made of `n` copies of the character `c`; it writes out the
horizontal rules of the banners. -/
def rule (c : Char) (n : Nat) : String :=
  String.mk (List.replicate n c)

def UART_transmit (data : Char) (out : String) : String :=
  out.push data

def UART_print (str : String) (out : String) : String :=
  out ++ str

def UART_println (str : String) (out : String) : String :=
  let out := UART_print str out
  let out := UART_transmit (Char.ofNat 13) out
  UART_transmit (Char.ofNat 10) out

def hex_chars : List Char := "0123456789ABCDEF".toList

def UART_print_hex8 (val : Nat) (out : String) : String :=
  let out := UART_print "0x" out
  let out := UART_transmit (hex_chars.getD ((val >>> 4) &&& 0x0F) (Char.ofNat 0)) out
  UART_transmit (hex_chars.getD (val &&& 0x0F) (Char.ofNat 0)) out

def UART_print_hex16 (val : Nat) (out : String) : String :=
  let out := UART_print "0x" out
  let out := UART_transmit (hex_chars.getD ((val >>> 12) &&& 0x0F) (Char.ofNat 0)) out
  let out := UART_transmit (hex_chars.getD ((val >>> 8) &&& 0x0F) (Char.ofNat 0)) out
  let out := UART_transmit (hex_chars.getD ((val >>> 4) &&& 0x0F) (Char.ofNat 0)) out
  UART_transmit (hex_chars.getD (val &&& 0x0F) (Char.ofNat 0)) out

/-- Run a piece of UART output on the machine: only `uart` changes. -/
def Machine.tx (st : Machine) (f : String → String) : Machine :=
  { st with uart := f st.uart }

/-- The function `UART_init` writes only UART configuration registers, which
are not part of the modelled state. -/
def UART_init (st : Machine) : Machine := st

/-- The function `UART_flush` drains the UART receive register and waits; it
changes nothing in the modelled state. -/
def UART_flush (st : Machine) : Machine := st

/-! ## Watchdog -/

def WDT_TIMEOUT_2S : Nat := (1 <<< WDP2) ||| (1 <<< WDP1) ||| (1 <<< WDP0)

def WDT_init (st : Machine) : Machine :=
  let st := { st with MCUSR := 0 }
  let st := cli st
  let st := { st with WDTCSR := (1 <<< WDCE) ||| (1 <<< WDE) }
  let st := { st with WDTCSR := (1 <<< WDE) ||| (1 <<< WDIE) ||| WDT_TIMEOUT_2S }
  sei st

def WDT_disable (st : Machine) : Machine :=
  let st := cli st
  let st := { st with MCUSR := (st.MCUSR &&& (0xFF - (1 <<< WDRF))) % 256 }
  let st := { st with WDTCSR := (1 <<< WDCE) ||| (1 <<< WDE) }
  let st := { st with WDTCSR := 0 }
  sei st

/-- The library routine `wdt_disable()` of `avr/wdt.h` called by `main`: it
turns the watchdog off and restores the status register it found. -/
def wdt_disable (st : Machine) : Machine :=
  { st with WDTCSR := 0 }

/-- The function `WDT_reset`: the instruction `wdr` restarts the countdown. -/
def WDT_reset (st : Machine) : Machine :=
  { st with trace := st.trace ++ [Event.wdr] }

/-- The function `force_system_reset`, up to its final `while(1) {}`, which
never exits: the result is the machine on entry to that loop. -/
def force_system_reset (st : Machine) : Machine :=
  let st := cli st
  let st := { st with WDTCSR := (1 <<< WDCE) ||| (1 <<< WDE) }
  { st with WDTCSR := (1 <<< WDE) }

/-- The handler `ISR(WDT_vect)`. -/
def ISR_WDT_vect (st : Machine) : Machine :=
  save_crash_dump CRASH_REASON_WDT st

/-! ## Report -/

def STACK_HEALTHY : String := "HEALTHY (low stack usage)                     ║"
def STACK_MODERATE : String := "MODERATE (watch stack depth)                  ║"
def STACK_CRITICAL : String := "CRITICAL (possible overflow!)                 ║"

/-- The line chosen by the `Stack Health` branches of `print_crash_analysis`. -/
def stack_health_line (stack_pointer_val : Nat) : String :=
  if stack_pointer_val > 0x0700 then STACK_HEALTHY
  else if stack_pointer_val > 0x0400 then STACK_MODERATE
  else STACK_CRITICAL

/-- The line chosen by the `switch (report->crash_reason)`. -/
def crash_reason_line (crash_reason : Nat) : String :=
  if crash_reason = CRASH_REASON_WDT then
    "WATCHDOG TIMEOUT (System Hung)                   ║"
  else if crash_reason = CRASH_REASON_EXPLICIT then
    "EXPLICIT CRASH DUMP (User Triggered)             ║"
  else if crash_reason = CRASH_REASON_STACK_OVF then
    "STACK OVERFLOW DETECTED                          ║"
  else
    "UNKNOWN                                          ║"

/-- Text sent by `print_crash_analysis`. -/
def print_crash_analysis_text (report : CrashReport_t) (out : String) : String :=
  let out := UART_println "" out
  let out := UART_println ("╔" ++ rule '═' 62 ++ "╗") out
  let out := UART_println "║        ☠  CRASH DETECTED - POST-MORTEM ANALYSIS  ☠          ║" out
  let out := UART_println ("╠" ++ rule '═' 62 ++ "╣") out
  let out := UART_print "║ Crash Reason: " out
  let out := UART_println (crash_reason_line report.crash_reason) out
  let out := UART_print "║ Stack Pointer at Crash: " out
  let out := UART_print_hex16 report.stack_pointer_val out
  let out := UART_println "                              ║" out
  let out := UART_print "║ Stack Health: " out
  let out := UART_println (stack_health_line report.stack_pointer_val) out
  let out := UART_print "║ MCUSR Mirror: " out
  let out := UART_print_hex8 report.mcusr_mirror out
  let out := UART_print " → " out
  let out := if report.mcusr_mirror &&& (1 <<< WDRF) ≠ 0 then UART_print "[WDT] " out else out
  let out := if report.mcusr_mirror &&& (1 <<< BORF) ≠ 0 then UART_print "[BOD] " out else out
  let out := if report.mcusr_mirror &&& (1 <<< EXTRF) ≠ 0 then UART_print "[EXT] " out else out
  let out := if report.mcusr_mirror &&& (1 <<< PORF) ≠ 0 then UART_print "[PWR] " out else out
  let out := UART_println "                        ║" out
  let out := UART_println ("╚" ++ rule '═' 62 ++ "╝") out
  UART_println "" out

def print_crash_analysis (report : CrashReport_t) (st : Machine) : Machine :=
  { st with
    uart := print_crash_analysis_text report st.uart
    trace := st.trace ++ [Event.crash_analysis report] }

def print_menu (out : String) : String :=
  let out := UART_println "" out
  let out := UART_println ("┌" ++ rule '─' 62 ++ "┐") out
  let out := UART_println "│       BLACK BOX FORENSIC CRASH REPORTER - TORTURE MENU       │" out
  let out := UART_println ("├" ++ rule '─' 62 ++ "┤") out
  let out := UART_println "│ [1] Trigger Watchdog Timeout (Infinite Loop - Hangs!)        │" out
  let out := UART_println "│ [2] Trigger Explicit Crash Dump (Manual Trigger)             │" out
  let out := UART_println "│ [3] Clear EEPROM Crash Data                                  │" out
  let out := UART_println "│ [4] Read Current Stack Pointer                               │" out
  let out := UART_println "│ [5] Test Deep Recursion (Stack Stress)                       │" out
  let out := UART_println ("└" ++ rule '─' 62 ++ "┘") out
  UART_print "Select option: " out

/-! ## Menu actions -/

/-- The function `deep_recursion_test`.  The stack frames of the calls
themselves are laid out by the compiler and are not modelled; they only
affect the stack-pointer values printed. -/
def deep_recursion_test : Nat → Machine → Machine
  | 0, st => st
  | depth + 1, st =>
    let st :=
      if (depth + 1) % 10 = 0 then
        let st := st.tx (UART_print "  Recursion depth: ")
        let st := st.tx (UART_print_hex16 (depth + 1))
        let st := st.tx (UART_print " | SP: ")
        let st := st.tx (UART_print_hex16 (get_stack_pointer st))
        st.tx (UART_println "")
      else st
    let st := WDT_reset st
    deep_recursion_test depth st

/-- The function `trigger_infinite_loop`, up to its `while(1)`, which never
exits: the result is the machine on entry to that loop. -/
def trigger_infinite_loop (st : Machine) : Machine :=
  let st := st.tx (UART_println "")
  let st := st.tx (UART_println ">>> Entering infinite loop... Watchdog will trigger in ~2s <<<")
  let st := st.tx (UART_println ">>> System will capture crash dump and reset <<<")
  st.tx (UART_println "")

/-- The function `trigger_explicit_crash`; it ends in `force_system_reset`,
which never returns. -/
def trigger_explicit_crash (st : Machine) : Machine :=
  let st := st.tx (UART_println "")
  let st := st.tx (UART_println ">>> User-triggered crash dump - saving state... <<<")
  let st := save_crash_dump CRASH_REASON_EXPLICIT st
  let st := st.tx (UART_println ">>> Dump saved! Forcing system reset... <<<")
  force_system_reset st

/-! ## The program `main` -/

/-- The start of `main`, from its first statement up to the `print_menu()`
before the command loop: boot diagnostics, then arming of the watchdog. -/
def main_boot (st : Machine) : Machine :=
  let st := UART_flush st
  let mcusr_saved := st.MCUSR % 256
  let st := { st with MCUSR := 0 }
  let st := wdt_disable st
  let st := UART_init st
  let st := st.tx (UART_println "")
  let st := st.tx (UART_println (rule '=' 52))
  let st := st.tx (UART_println "   ATmega328P Black Box Forensic Crash Reporter")
  let st := st.tx (UART_println (rule '=' 52))
  let st := st.tx (UART_println "")
  let st := st.tx (UART_println "[BOOT] Checking EEPROM for crash report...")
  let (valid, report, st) := load_crash_report st
  let st :=
    if valid ≠ 0 then
      let st := st.tx (UART_println "[BOOT] *** PREVIOUS CRASH DETECTED! ***")
      let report := { report with mcusr_mirror := mcusr_saved }
      let st := print_crash_analysis report st
      let st := st.tx (UART_println "[BOOT] Clearing crash flag...")
      let st := clear_crash_flag st
      st.tx (UART_println "[BOOT] Crash data cleared. Ready for new crashes!")
    else
      st.tx (UART_println "[BOOT] No crash report found. Clean boot!")
  let st := UART_flush st
  let st := st.tx (UART_println "[BOOT] Initializing Watchdog Timer (2s timeout)...")
  let st := WDT_init st
  let st := st.tx (UART_println "[BOOT] System ready!")
  st.tx print_menu

/-- How one pass through the body of the command loop ends. -/
inductive Outcome where
  /-- The pass is over and the loop goes round again. -/
  | next (st : Machine)
  /-- Control has entered a `while(1)` that never exits; `st` is the machine
  on entry to it. -/
  | hung (st : Machine)

def Outcome.state : Outcome → Machine
  | Outcome.next st => st
  | Outcome.hung st => st

/-- The statement `switch (input)` in the command loop.  It is reached only
for `input` in `'1'..'5'`; its `default` branch is kept as in the source. -/
def menu_switch (input : Nat) (st : Machine) : Outcome :=
  if input = 0x31 then
    Outcome.hung (trigger_infinite_loop st)
  else if input = 0x32 then
    let st := UART_flush st
    Outcome.hung (trigger_explicit_crash st)
  else if input = 0x33 then
    let st := st.tx (UART_println ">>> Clearing EEPROM crash data... <<<")
    let st := clear_crash_flag st
    let st := st.tx (UART_println ">>> EEPROM cleared! <<<")
    Outcome.next (st.tx print_menu)
  else if input = 0x34 then
    let st := st.tx (UART_print ">>> Current Stack Pointer: ")
    let st := st.tx (UART_print_hex16 (get_stack_pointer st))
    let st := st.tx (UART_println " <<<")
    let st := st.tx (UART_print ">>> RAMEND: ")
    let st := st.tx (UART_print_hex16 RAMEND)
    let st := st.tx (UART_println " <<<")
    let st := UART_flush st
    Outcome.next (st.tx print_menu)
  else if input = 0x35 then
    let st := st.tx (UART_println ">>> Starting deep recursion test (50 levels)... <<<")
    let st := st.tx (UART_print ">>> Initial SP: ")
    let st := st.tx (UART_print_hex16 (get_stack_pointer st))
    let st := st.tx (UART_println " <<<")
    let st := deep_recursion_test 50 st
    let st := st.tx (UART_print ">>> Final SP: ")
    let st := st.tx (UART_print_hex16 (get_stack_pointer st))
    let st := st.tx (UART_println " <<<")
    let st := st.tx (UART_println ">>> Recursion test complete! <<<")
    let st := UART_flush st
    Outcome.next (st.tx print_menu)
  else
    let st := st.tx (UART_println ">>> Invalid option! <<<")
    let st := UART_flush st
    Outcome.next (st.tx print_menu)

/-- One pass through the body of `while(1)` in `main`.  The argument `rx` is
`none` when `UART_available()` returns 0 and `some input` when a byte is
received.  A received byte of `0x80` or more is outside `'1'..'5'` whether
`char` is signed or not, so the range test is done on the byte. -/
def main_loop_body (rx : Option Nat) (st : Machine) : Outcome :=
  let st := WDT_reset st
  match rx with
  | none => Outcome.next st
  | some input =>
    if input < 0x31 ∨ input > 0x35 then
      Outcome.next (UART_flush st)
    else
      let st := st.tx (UART_transmit (Char.ofNat input))
      let st := st.tx (UART_println "")
      let st := UART_flush st
      menu_switch input st

/-! ## Interrupted capture -/

/-- The five byte writes of `save_crash_dump`, in program order, as pairs of
address and data. -/
def crash_dump_writes (reason : Nat) (st : Machine) : List (Nat × Nat) :=
  [ (EEPROM_CRASH_REPORT_ADDR + 0, CRASH_FLAG_SET),
    (EEPROM_CRASH_REPORT_ADDR + 1, reason % 256),
    (EEPROM_CRASH_REPORT_ADDR + 2, ((get_stack_pointer st) &&& 0xFF) % 256),
    (EEPROM_CRASH_REPORT_ADDR + 3, ((get_stack_pointer st) >>> 8) % 256),
    (EEPROM_CRASH_REPORT_ADDR + 4, st.MCUSR % 256) ]

/-- The function `save_crash_dump` cut short by a loss of power after its
first `k` byte writes. -/
def save_crash_dump_torn (k : Nat) (reason : Nat) (st : Machine) : Machine :=
  ((crash_dump_writes reason st).take k).foldl (fun s w => EEPROM_write w.1 w.2 s) (cli st)

/-! ## Trace observers -/

/-- The records handed to `print_crash_analysis`, in call order. -/
def analysed : List Event → List CrashReport_t
  | [] => []
  | Event.crash_analysis r :: es => r :: analysed es
  | _ :: es => analysed es

/-- Value of the interrupt-enable flag after the events `es`, from `i`. -/
def iflag_after (i : Bool) : List Event → Bool
  | [] => i
  | Event.cli :: es => iflag_after false es
  | Event.sei :: es => iflag_after true es
  | _ :: es => iflag_after i es

def is_eeprom_write : Event → Bool
  | Event.eeprom_write _ _ => true
  | _ => false

/-- The part of an event list from its first EEPROM programming strobe to its
last one, both included. -/
def write_window (es : List Event) : List Event :=
  (((es.dropWhile fun e => !is_eeprom_write e).reverse).dropWhile fun e => !is_eeprom_write e).reverse

/-- The events that `save_crash_dump reason` appends to the trace. -/
def save_crash_dump_events (reason : Nat) (st : Machine) : List Event :=
  (save_crash_dump reason st).trace.drop st.trace.length

/-! ## Report observers -/

theorem byte_pair_addr (a : Nat) (h : a < 65536) :
    ((a % 65536) >>> 8) % 256 * 256 + (a % 65536) % 256 = a := by
  rw [Nat.shiftRight_eq_div_pow]; omega

theorem word_of_bytes (hi lo : Nat) (hhi : hi < 256) (hlo : lo < 256) :
    (((hi % 65536) <<< 8) % 65536 ||| lo) % 65536 = hi * 256 + lo := by
  have h := Nat.mul_add_lt_is_or (show lo < 2 ^ 8 by omega) hi
  rw [Nat.shiftLeft_eq]
  have e : hi % 65536 * 2 ^ 8 % 65536 = 2 ^ 8 * hi := by omega
  rw [e, ← h]; omega

theorem low_byte (s : Nat) : (s &&& 0xFF) % 256 = s % 256 := by
  have h := Nat.and_pow_two_sub_one_eq_mod s 8
  norm_num at h
  rw [h]; omega

theorem high_byte (s : Nat) (h : s < 65536) : (s >>> 8) % 256 = s / 256 := by
  rw [Nat.shiftRight_eq_div_pow]; omega

theorem EEPROM_read_eeprom (a : Nat) (st : Machine) :
    (EEPROM_read a st).2.eeprom = st.eeprom := rfl

theorem EEPROM_read_val (a : Nat) (st : Machine) (h : a < 65536) :
    (EEPROM_read a st).1 = st.eeprom a := by
  simp [EEPROM_read, eeprom_wait_ready, byte_pair_addr a h]

theorem EEPROM_write_eeprom (a d : Nat) (st : Machine) (h : a < 65536) :
    (EEPROM_write a d st).eeprom = fun x => if x = a then d % 256 else st.eeprom x := by
  simp [EEPROM_write, eeprom_wait_ready, eeprom_program, cli, sei, byte_pair_addr a h]

theorem get_stack_pointer_eq (st : Machine) :
    get_stack_pointer st = (st.SPH % 256) * 256 + st.SPL % 256 := by
  have h := word_of_bytes (st.SPH % 256) (st.SPL % 256) (by omega) (by omega)
  have e : st.SPH % 256 % 65536 = st.SPH % 256 := by omega
  rw [e] at h
  simpa [get_stack_pointer] using h

theorem load_crash_report_ret (st : Machine) :
    (load_crash_report st).1 = if st.eeprom 0 = 0xDE then 1 else 0 := by
  simp [load_crash_report, EEPROM_CRASH_REPORT_ADDR, CRASH_FLAG_SET, EEPROM_read_val,
    EEPROM_read_eeprom]

theorem load_crash_report_record (st : Machine) :
    (load_crash_report st).2.1 =
      { crash_flag := st.eeprom 0
        crash_reason := st.eeprom 1
        stack_pointer_val := (((st.eeprom 3 % 65536) <<< 8) % 65536 ||| st.eeprom 2) % 65536
        mcusr_mirror := st.eeprom 4 } := by
  simp [load_crash_report, EEPROM_CRASH_REPORT_ADDR, EEPROM_read_val, EEPROM_read_eeprom]

theorem load_crash_report_eeprom (st : Machine) :
    (load_crash_report st).2.2.eeprom = st.eeprom := by
  simp [load_crash_report, EEPROM_read_eeprom]

theorem save_crash_dump_eeprom (reason : Nat) (st : Machine) :
    (save_crash_dump reason st).eeprom = fun x =>
      if x = 4 then st.MCUSR % 256
      else if x = 3 then (get_stack_pointer st >>> 8) % 256
      else if x = 2 then (get_stack_pointer st &&& 0xFF) % 256
      else if x = 1 then reason % 256
      else if x = 0 then 0xDE
      else st.eeprom x := by
  simp [save_crash_dump, EEPROM_CRASH_REPORT_ADDR, CRASH_FLAG_SET, EEPROM_write_eeprom,
    eeprom_wait_ready, cli]

theorem load_crash_report_trace (st : Machine) :
    (load_crash_report st).2.2.trace = st.trace := by
  simp [load_crash_report, EEPROM_read, eeprom_wait_ready]

@[simp] theorem tx_eeprom (st : Machine) (f : String → String) :
    (st.tx f).eeprom = st.eeprom := rfl

@[simp] theorem tx_trace (st : Machine) (f : String → String) :
    (st.tx f).trace = st.trace := rfl

@[simp] theorem tx_MCUSR (st : Machine) (f : String → String) :
    (st.tx f).MCUSR = st.MCUSR := rfl

theorem EEPROM_write_trace (a d : Nat) (st : Machine) (h : a < 65536) :
    (EEPROM_write a d st).trace =
      st.trace ++ [Event.cli, Event.eeprom_write a (d % 256), Event.sei] := by
  simp [EEPROM_write, eeprom_wait_ready, eeprom_program, cli, sei, byte_pair_addr a h]

theorem analysed_append (xs ys : List Event) :
    analysed (xs ++ ys) = analysed xs ++ analysed ys := by
  induction xs with
  | nil => rfl
  | cons e es ih => cases e <;> simp [analysed, ih]

theorem main_boot_eeprom (st : Machine) :
    (main_boot st).eeprom =
      if st.eeprom 0 = 0xDE then (fun x => if x = 0 then 0 else st.eeprom x) else st.eeprom := by
  unfold main_boot
  simp only [UART_flush, UART_init]
  generalize hl : load_crash_report _ = l
  obtain ⟨v, r, s⟩ := l
  have hret := congrArg (fun x => x.1) hl
  have hee := congrArg (fun x => x.2.2.eeprom) hl
  simp only [load_crash_report_ret, load_crash_report_eeprom, tx_eeprom] at hret hee
  simp only [wdt_disable] at hret hee
  by_cases h : st.eeprom 0 = 0xDE
  · simp only [h, if_true] at hret
    subst hret
    simp [clear_crash_flag, EEPROM_write_eeprom, EEPROM_CRASH_REPORT_ADDR, CRASH_FLAG_CLEAR,
      print_crash_analysis, WDT_init, cli, sei, ← hee, h]
  · simp only [h, if_false] at hret
    subst hret
    simp [WDT_init, cli, sei, ← hee, h]

theorem main_boot_trace_valid (st : Machine) (h : st.eeprom 0 = 0xDE) :
    (main_boot st).trace =
      st.trace ++
        [Event.crash_analysis
            { (load_crash_report st).2.1 with mcusr_mirror := st.MCUSR % 256 },
          Event.cli, Event.eeprom_write 0 0, Event.sei, Event.cli, Event.sei] := by
  unfold main_boot
  simp only [UART_flush, UART_init]
  generalize hl : load_crash_report _ = l
  obtain ⟨v, r, s⟩ := l
  have hret := congrArg (fun x => x.1) hl
  have hrec := congrArg (fun x => x.2.1) hl
  have htr := congrArg (fun x => x.2.2.trace) hl
  simp only [load_crash_report_ret, load_crash_report_record, load_crash_report_trace,
    tx_eeprom, tx_trace] at hret hrec htr
  simp only [wdt_disable] at hret hrec htr
  simp only [h, if_true] at hret
  subst hret
  rw [load_crash_report_record]
  simp [clear_crash_flag, EEPROM_write_trace, EEPROM_CRASH_REPORT_ADDR, CRASH_FLAG_CLEAR,
    print_crash_analysis, WDT_init, cli, sei, ← htr, ← hrec]

theorem main_boot_MCUSR (st : Machine) : (main_boot st).MCUSR = 0 := by
  unfold main_boot
  simp [WDT_init, cli, sei]

theorem save_crash_dump_torn_sentinel (k reason : Nat) (st : Machine) (hk : k < 5) :
    (save_crash_dump_torn k reason st).eeprom 0 = if k = 0 then st.eeprom 0 else 0xDE := by
  interval_cases k <;>
    simp [save_crash_dump_torn, crash_dump_writes, EEPROM_CRASH_REPORT_ADDR, CRASH_FLAG_SET,
      EEPROM_write_eeprom, cli]

/-- With all five writes done, the interrupted capture leaves the store of
`save_crash_dump`. -/
theorem save_crash_dump_torn_five (reason : Nat) (st : Machine) :
    (save_crash_dump_torn 5 reason st).eeprom = (save_crash_dump reason st).eeprom := by
  rw [save_crash_dump_eeprom]
  simp only [save_crash_dump_torn, crash_dump_writes, List.take, List.foldl]
  simp [EEPROM_CRASH_REPORT_ADDR, CRASH_FLAG_SET, EEPROM_write_eeprom, cli]

theorem WDT_reset_eeprom (st : Machine) : (WDT_reset st).eeprom = st.eeprom := rfl

theorem deep_recursion_test_succ (n : Nat) (st : Machine) :
    deep_recursion_test (n + 1) st =
      deep_recursion_test n (WDT_reset (if (n + 1) % 10 = 0 then
        let st := st.tx (UART_print "  Recursion depth: ")
        let st := st.tx (UART_print_hex16 (n + 1))
        let st := st.tx (UART_print " | SP: ")
        let st := st.tx (UART_print_hex16 (get_stack_pointer st))
        st.tx (UART_println "") else st)) := by
  rw [deep_recursion_test]

theorem deep_recursion_test_eeprom (depth : Nat) (st : Machine) :
    (deep_recursion_test depth st).eeprom = st.eeprom := by
  induction depth generalizing st with
  | zero => rfl
  | succ n ih =>
    refine (congrArg Machine.eeprom (deep_recursion_test_succ n st)).trans ((ih _).trans ?_)
    refine (WDT_reset_eeprom _).trans ?_
    split
    · simp only [tx_eeprom]
    · rfl

theorem save_crash_dump_eeprom_congr (reason : Nat) (st st' : Machine)
    (he : st'.eeprom = st.eeprom) (hl : st'.SPL = st.SPL) (hh : st'.SPH = st.SPH)
    (hm : st'.MCUSR = st.MCUSR) :
    (save_crash_dump reason st').eeprom = (save_crash_dump reason st).eeprom := by
  rw [save_crash_dump_eeprom, save_crash_dump_eeprom, get_stack_pointer_eq,
    get_stack_pointer_eq, he, hl, hh, hm]

theorem force_system_reset_eeprom (st : Machine) :
    (force_system_reset st).eeprom = st.eeprom := rfl

theorem trigger_explicit_crash_eeprom (st : Machine) :
    (trigger_explicit_crash st).eeprom = (save_crash_dump CRASH_REASON_EXPLICIT st).eeprom := by
  unfold trigger_explicit_crash
  refine (force_system_reset_eeprom _).trans ?_
  rw [tx_eeprom]
  exact save_crash_dump_eeprom_congr _ _ _ rfl rfl rfl rfl

theorem menu_switch_eeprom (input : Nat) (st : Machine) :
    (menu_switch input st).state.eeprom =
      if input = 0x32 then (save_crash_dump CRASH_REASON_EXPLICIT st).eeprom
      else if input = 0x33 then (fun a => if a = 0 then 0 else st.eeprom a)
      else st.eeprom := by
  unfold menu_switch
  by_cases h1 : input = 0x31
  · have h2 : input ≠ 0x32 := by omega
    have h3 : input ≠ 0x33 := by omega
    rw [if_pos h1, if_neg h2, if_neg h3]
    simp only [Outcome.state, trigger_infinite_loop, tx_eeprom]
  · rw [if_neg h1]
    by_cases h2 : input = 0x32
    · rw [if_pos h2, if_pos h2]
      simp only [Outcome.state, UART_flush]
      exact trigger_explicit_crash_eeprom st
    · rw [if_neg h2, if_neg h2]
      by_cases h3 : input = 0x33
      · rw [if_pos h3, if_pos h3]
        simp only [Outcome.state, tx_eeprom, clear_crash_flag, EEPROM_CRASH_REPORT_ADDR,
          CRASH_FLAG_CLEAR]
        rw [EEPROM_write_eeprom _ _ _ (by decide)]
        rfl
      · rw [if_neg h3, if_neg h3]
        by_cases h4 : input = 0x34
        · rw [if_pos h4]
          simp only [Outcome.state, tx_eeprom, UART_flush]
        · rw [if_neg h4]
          by_cases h5 : input = 0x35
          · rw [if_pos h5]
            simp only [Outcome.state, tx_eeprom, UART_flush, deep_recursion_test_eeprom]
          · rw [if_neg h5]
            simp only [Outcome.state, tx_eeprom, UART_flush]

theorem main_loop_body_eeprom (input : Nat) (st : Machine) :
    (main_loop_body (some input) st).state.eeprom =
      if input = 0x32 then (save_crash_dump CRASH_REASON_EXPLICIT st).eeprom
      else if input = 0x33 then (fun a => if a = 0 then 0 else st.eeprom a)
      else st.eeprom := by
  have e : main_loop_body (some input) st =
      if input < 0x31 ∨ input > 0x35 then Outcome.next (UART_flush (WDT_reset st))
      else menu_switch input (UART_flush (((WDT_reset st).tx
        (UART_transmit (Char.ofNat input))).tx (UART_println ""))) := rfl
  rw [e]
  by_cases hr : input < 0x31 ∨ input > 0x35
  · have h2 : input ≠ 0x32 := by omega
    have h3 : input ≠ 0x33 := by omega
    rw [if_pos hr, if_neg h2, if_neg h3]
    rfl
  · rw [if_neg hr, menu_switch_eeprom]
    by_cases h2 : input = 0x32
    · rw [if_pos h2, if_pos h2]
      exact save_crash_dump_eeprom_congr _ _ _ rfl rfl rfl rfl
    · rw [if_neg h2, if_neg h2]
      rfl

theorem save_crash_dump_torn_eeprom (k reason : Nat) (st : Machine) (hk : k ≤ 5) (a : Nat) :
    (save_crash_dump_torn k reason st).eeprom a =
      if a < k then (save_crash_dump reason st).eeprom a else st.eeprom a := by
  rw [save_crash_dump_eeprom]
  interval_cases k <;>
    simp only [save_crash_dump_torn, crash_dump_writes, List.take, List.foldl,
      EEPROM_CRASH_REPORT_ADDR, CRASH_FLAG_SET, Nat.zero_add] <;>
    simp only [EEPROM_write_eeprom _ _ _ (show (0 : Nat) < 65536 by decide),
      EEPROM_write_eeprom _ _ _ (show (1 : Nat) < 65536 by decide),
      EEPROM_write_eeprom _ _ _ (show (2 : Nat) < 65536 by decide),
      EEPROM_write_eeprom _ _ _ (show (3 : Nat) < 65536 by decide),
      EEPROM_write_eeprom _ _ _ (show (4 : Nat) < 65536 by decide), cli] <;>
    split_ifs <;> first | rfl | omega

theorem save_crash_dump_trace (reason : Nat) (st : Machine) :
    (save_crash_dump reason st).trace =
      st.trace ++
        [ Event.cli,
          Event.cli, Event.eeprom_write 0 0xDE, Event.sei,
          Event.cli, Event.eeprom_write 1 (reason % 256), Event.sei,
          Event.cli, Event.eeprom_write 2 ((get_stack_pointer st &&& 0xFF) % 256), Event.sei,
          Event.cli, Event.eeprom_write 3 ((get_stack_pointer st >>> 8) % 256), Event.sei,
          Event.cli, Event.eeprom_write 4 (st.MCUSR % 256), Event.sei ] := by
  simp [save_crash_dump, EEPROM_CRASH_REPORT_ADDR, CRASH_FLAG_SET, EEPROM_write_trace,
    eeprom_wait_ready, cli]

/-! ## The text of the report -/

/-- C1: capture followed by load is a round trip.  For every reason byte,
every 16-bit stack pointer `s` and every 8-bit `MCUSR` value `m`, after
`save_crash_dump reason` run with `SP = s` and `MCUSR = m`, a
`load_crash_report` on any machine holding the resulting store (the same
boot or the one after a reset) returns 1 and yields `crash_flag = 0xDE`,
`crash_reason = reason`, `stack_pointer_val = s`, `mcusr_mirror = m`. -/
theorem capture_load_roundtrip (st st' : Machine) (reason s m : Nat)
    (hr : reason < 256) (hs : s < 65536) (hm : m < 256)
    (hSPL : st.SPL = s % 256) (hSPH : st.SPH = s / 256) (hM : st.MCUSR = m)
    (hstore : st'.eeprom = (save_crash_dump reason st).eeprom) :
    (load_crash_report st').1 = 1 ∧
    (load_crash_report st').2.1 =
      { crash_flag := 0xDE, crash_reason := reason, stack_pointer_val := s, mcusr_mirror := m } := by
  have hsp : get_stack_pointer st = s := by
    rw [get_stack_pointer_eq, hSPL, hSPH]; omega
  have hw := word_of_bytes (s / 256) (s % 256) (by omega) (by omega)
  refine ⟨?_, ?_⟩
  · rw [load_crash_report_ret, hstore, save_crash_dump_eeprom]; simp
  · rw [load_crash_report_record, hstore, save_crash_dump_eeprom]
    simp only [hsp, hM, low_byte, high_byte s hs]
    simp [hw, Nat.mod_eq_of_lt hr, Nat.mod_eq_of_lt hm]
    omega

/-- Witness of C1 at the erased machine (`SP = 0x08F0`, `MCUSR = 0x08`) and
reason `CRASH_REASON_EXPLICIT`. -/
theorem capture_load_roundtrip_witness :
    (load_crash_report (save_crash_dump 2 erased)).1 = 1 ∧
    (load_crash_report (save_crash_dump 2 erased)).2.1 =
      { crash_flag := 0xDE, crash_reason := 2, stack_pointer_val := 0x08F0, mcusr_mirror := 0x08 } :=
  capture_load_roundtrip erased (save_crash_dump 2 erased) 2 0x08F0 0x08
    (by decide) (by decide) (by decide) (by decide) (by decide) rfl rfl

/-- C2: `load_crash_report` returns 1 exactly when the byte at the first
address of the record is `CRASH_FLAG_SET`, and 0 otherwise; a store whose
first byte is `CRASH_FLAG_CLEAR` or the erased pattern `0xFF` is reported
invalid whatever the other bytes are, and both differ from
`CRASH_FLAG_SET`. -/
theorem load_valid_iff_sentinel (st : Machine) :
    ((load_crash_report st).1 = 1 ↔ st.eeprom EEPROM_CRASH_REPORT_ADDR = CRASH_FLAG_SET) ∧
    ((load_crash_report st).1 = 0 ↔ st.eeprom EEPROM_CRASH_REPORT_ADDR ≠ CRASH_FLAG_SET) ∧
    (load_crash_report
      { st with eeprom := fun a =>
          if a = EEPROM_CRASH_REPORT_ADDR then CRASH_FLAG_CLEAR else st.eeprom a }).1 = 0 ∧
    (load_crash_report
      { st with eeprom := fun a =>
          if a = EEPROM_CRASH_REPORT_ADDR then 0xFF else st.eeprom a }).1 = 0 ∧
    CRASH_FLAG_CLEAR ≠ CRASH_FLAG_SET ∧ 0xFF ≠ CRASH_FLAG_SET := by
  simp only [load_crash_report_ret, EEPROM_CRASH_REPORT_ADDR, CRASH_FLAG_SET, CRASH_FLAG_CLEAR]
  refine ⟨?_, ?_, ?_, ?_, ?_, ?_⟩
  · by_cases h : st.eeprom 0 = 0xDE <;> simp [h]
  · by_cases h : st.eeprom 0 = 0xDE <;> simp [h]
  · simp
  · simp
  · decide
  · decide

/-- C8: the record layout is fixed.  After `save_crash_dump reason` run with
`SP = s` and `MCUSR = m`, the store bytes at addresses 0 to 4 are `0xDE`,
`reason`, `s % 256`, `s / 256`, `m`, and `load_crash_report` builds its
record from the bytes at the same five addresses: flag from 0, reason from
1, stack pointer from 3 (high) and 2 (low), mirror from 4. -/
theorem record_layout (st : Machine) (reason s m : Nat)
    (hr : reason < 256) (hs : s < 65536) (hm : m < 256)
    (hSPL : st.SPL = s % 256) (hSPH : st.SPH = s / 256) (hM : st.MCUSR = m) :
    (save_crash_dump reason st).eeprom (EEPROM_CRASH_REPORT_ADDR + 0) = 0xDE ∧
    (save_crash_dump reason st).eeprom (EEPROM_CRASH_REPORT_ADDR + 1) = reason ∧
    (save_crash_dump reason st).eeprom (EEPROM_CRASH_REPORT_ADDR + 2) = s % 256 ∧
    (save_crash_dump reason st).eeprom (EEPROM_CRASH_REPORT_ADDR + 3) = s / 256 ∧
    (save_crash_dump reason st).eeprom (EEPROM_CRASH_REPORT_ADDR + 4) = m ∧
    (load_crash_report (save_crash_dump reason st)).2.1 =
      { crash_flag := (save_crash_dump reason st).eeprom (EEPROM_CRASH_REPORT_ADDR + 0)
        crash_reason := (save_crash_dump reason st).eeprom (EEPROM_CRASH_REPORT_ADDR + 1)
        stack_pointer_val :=
          (save_crash_dump reason st).eeprom (EEPROM_CRASH_REPORT_ADDR + 3) * 256
            + (save_crash_dump reason st).eeprom (EEPROM_CRASH_REPORT_ADDR + 2)
        mcusr_mirror := (save_crash_dump reason st).eeprom (EEPROM_CRASH_REPORT_ADDR + 4) } := by
  have hsp : get_stack_pointer st = s := by
    rw [get_stack_pointer_eq, hSPL, hSPH]; omega
  have hw := word_of_bytes (s / 256) (s % 256) (by omega) (by omega)
  rw [load_crash_report_record, save_crash_dump_eeprom]
  simp only [hsp, hM, low_byte, high_byte s hs, EEPROM_CRASH_REPORT_ADDR]
  simp [hw, Nat.mod_eq_of_lt hr, Nat.mod_eq_of_lt hm]

/-- Witness of C8 at the erased machine (`SP = 0x08F0`, `MCUSR = 0x08`) and
reason `CRASH_REASON_WDT`. -/
theorem record_layout_witness :
    (save_crash_dump 1 erased).eeprom 0 = 0xDE ∧
    (save_crash_dump 1 erased).eeprom 1 = 1 ∧
    (save_crash_dump 1 erased).eeprom 2 = 0xF0 ∧
    (save_crash_dump 1 erased).eeprom 3 = 0x08 ∧
    (save_crash_dump 1 erased).eeprom 4 = 0x08 :=
  have h := record_layout erased 1 0x08F0 0x08
    (by decide) (by decide) (by decide) (by decide) (by decide) rfl
  ⟨h.1, h.2.1, h.2.2.1, h.2.2.2.1, h.2.2.2.2.1⟩

/-! ## Health classification -/

/-- C3: single consumption.  Once the boot part of `main` has run (load,
and when the record is valid, report and `clear_crash_flag`), a
`load_crash_report` on any machine holding the resulting store returns 0,
whether or not the first load found a valid record. -/
theorem single_consumption (st st' : Machine)
    (hstore : st'.eeprom = (main_boot st).eeprom) :
    (load_crash_report st').1 = 0 := by
  rw [load_crash_report_ret, hstore, main_boot_eeprom]
  by_cases h : st.eeprom 0 = 0xDE <;> simp [h]

/-- Witness of C3: a boot that finds the record of an explicit capture. -/
theorem single_consumption_witness :
    (load_crash_report (save_crash_dump 2 erased)).1 = 1 ∧
    (load_crash_report (main_boot (save_crash_dump 2 erased))).1 = 0 :=
  ⟨by decide,
    single_consumption (save_crash_dump 2 erased) (main_boot (save_crash_dump 2 erased)) rfl⟩

/-- C7: boot diagnostics reports the reset cause of the current boot.  For
every store holding a valid record and every `MCUSR` value `m` present when
`main` starts, `main` calls `print_crash_analysis` exactly once, on the
record decoded from the store with `mcusr_mirror` replaced by `m`: the
reason and stack pointer are the decoded ones, the mirror is `m` whatever
byte the store holds at offset 4, and `MCUSR` is zero afterwards. -/
theorem boot_reports_current_reset_cause (st : Machine) (m : Nat)
    (hvalid : st.eeprom EEPROM_CRASH_REPORT_ADDR = CRASH_FLAG_SET)
    (hm : m < 256) (hM : st.MCUSR = m) :
    analysed (main_boot st).trace =
      analysed st.trace ++
        [{ crash_flag := CRASH_FLAG_SET
           crash_reason := (load_crash_report st).2.1.crash_reason
           stack_pointer_val := (load_crash_report st).2.1.stack_pointer_val
           mcusr_mirror := m }] ∧
    (∀ b : Nat,
      analysed (main_boot
          { st with eeprom := fun a => if a = EEPROM_CRASH_REPORT_ADDR + 4 then b else st.eeprom a }).trace =
        analysed (main_boot st).trace) ∧
    (main_boot st).MCUSR = 0 := by
  simp only [EEPROM_CRASH_REPORT_ADDR, CRASH_FLAG_SET] at hvalid ⊢
  have key : ∀ s : Machine, s.eeprom 0 = 0xDE → analysed (main_boot s).trace =
      analysed s.trace ++ [{ (load_crash_report s).2.1 with mcusr_mirror := s.MCUSR % 256 }] := by
    intro s hs
    rw [main_boot_trace_valid s hs, analysed_append]
    rfl
  refine ⟨?_, ?_, main_boot_MCUSR st⟩
  · rw [key st hvalid, hM, Nat.mod_eq_of_lt hm, load_crash_report_record, hvalid]
  · intro b
    rw [key st hvalid, key _ (by simp [hvalid])]
    simp [load_crash_report_record]

/-- Witness of C7: the store holds the record of a watchdog capture taken
with `MCUSR = 0x08`, and the next boot starts with `MCUSR = 0x02`. -/
theorem boot_reports_current_reset_cause_witness :
    analysed (main_boot { save_crash_dump 1 erased with MCUSR := 0x02 }).trace =
      [{ crash_flag := 0xDE, crash_reason := 1, stack_pointer_val := 0x08F0,
         mcusr_mirror := 0x02 }] :=
  (boot_reports_current_reset_cause { save_crash_dump 1 erased with MCUSR := 0x02 } 0x02
    (by decide) (by decide) rfl).1.trans (by decide)

/-! ## Interrupted capture -/

/-- C4, refuted as stated: the erased store holds no valid record, yet a
capture of reason `CRASH_REASON_EXPLICIT` cut after its first byte write
(`k = 1 < 5`) leaves a store on which `load_crash_report` returns 1, not 0;
so the claim does not hold for all stores and all `k < 5`. -/
theorem torn_write_reads_valid :
    erased.eeprom EEPROM_CRASH_REPORT_ADDR ≠ CRASH_FLAG_SET ∧
    (load_crash_report (save_crash_dump_torn 1 CRASH_REASON_EXPLICIT erased)).1 = 1 ∧
    ¬ (∀ (st : Machine) (k reason : Nat), st.eeprom EEPROM_CRASH_REPORT_ADDR ≠ CRASH_FLAG_SET →
        k < 5 → (load_crash_report (save_crash_dump_torn k reason st)).1 = 0) := by
  refine ⟨by decide, by decide, ?_⟩
  intro h
  have h1 := h erased 1 CRASH_REASON_EXPLICIT (by decide) (by decide)
  revert h1
  decide

/-- C4, amended: for every store without a valid record and every `k < 5`,
after a capture cut after its first `k` byte writes `load_crash_report`
returns 0 exactly when `k = 0`; for `1 ≤ k` the sentinel, written first, is
already `CRASH_FLAG_SET` and the load returns 1.  The torn store holds, at
every address below `k`, the byte that the complete `save_crash_dump`
writes there, and at every address from `k` on the old content. -/
theorem torn_write_sentinel_first (st st' : Machine) (k reason : Nat)
    (hno : st.eeprom EEPROM_CRASH_REPORT_ADDR ≠ CRASH_FLAG_SET) (hk : k < 5)
    (hstore : st'.eeprom = (save_crash_dump_torn k reason st).eeprom) :
    ((load_crash_report st').1 = 0 ↔ k = 0) ∧
    ((load_crash_report st').1 = 1 ↔ 1 ≤ k) ∧
    (∀ a, a < k → st'.eeprom (EEPROM_CRASH_REPORT_ADDR + a) =
      (save_crash_dump reason st).eeprom (EEPROM_CRASH_REPORT_ADDR + a)) ∧
    (∀ a, k ≤ a → st'.eeprom (EEPROM_CRASH_REPORT_ADDR + a) =
      st.eeprom (EEPROM_CRASH_REPORT_ADDR + a)) := by
  simp only [EEPROM_CRASH_REPORT_ADDR, CRASH_FLAG_SET, Nat.zero_add] at hno ⊢
  refine ⟨?_, ?_, ?_, ?_⟩
  · rw [load_crash_report_ret, hstore, save_crash_dump_torn_sentinel k reason st hk]
    by_cases h0 : k = 0
    · simp [h0, hno]
    · simp [h0]
  · rw [load_crash_report_ret, hstore, save_crash_dump_torn_sentinel k reason st hk]
    by_cases h0 : k = 0
    · simp [h0, hno]
    · have h1 : 1 ≤ k := by omega
      simp [h0, h1]
  · intro a ha
    rw [hstore, save_crash_dump_torn_eeprom k reason st (by omega) a, if_pos ha]
  · intro a ha
    rw [hstore, save_crash_dump_torn_eeprom k reason st (by omega) a, if_neg (by omega)]

/-- Witness of C4 amended: the erased store and a capture cut after three
byte writes; the load returns 1, byte 2 is the low byte of the stack
pointer and byte 4 is still erased. -/
theorem torn_write_sentinel_first_witness :
    (load_crash_report (save_crash_dump_torn 3 2 erased)).1 = 1 ∧
    (save_crash_dump_torn 3 2 erased).eeprom 2 = 0xF0 ∧
    (save_crash_dump_torn 3 2 erased).eeprom 4 = 0xFF :=
  have h := torn_write_sentinel_first erased (save_crash_dump_torn 3 2 erased) 3 2
    (by decide) (by decide) rfl
  ⟨h.2.1.mpr (by decide), (h.2.2.1 2 (by decide)).trans (by decide),
    (h.2.2.2 4 (by decide)).trans (by decide)⟩

/-! ## Command loop -/

/-- C5, refuted as stated: the received byte `'3'` is neither `'1'` nor
`'2'`, and handling it on a store that holds the record of an explicit
capture changes the sentinel byte from `0xDE` to `0x00`. -/
theorem menu_clear_mutates_record :
    (save_crash_dump CRASH_REASON_EXPLICIT erased).eeprom EEPROM_CRASH_REPORT_ADDR = 0xDE ∧
    (main_loop_body (some 0x33)
      (save_crash_dump CRASH_REASON_EXPLICIT erased)).state.eeprom EEPROM_CRASH_REPORT_ADDR = 0x00 ∧
    ¬ (∀ (st : Machine) (input a : Nat), input ≠ 0x31 → input ≠ 0x32 → a < 5 →
        (main_loop_body (some input) st).state.eeprom (EEPROM_CRASH_REPORT_ADDR + a) =
          st.eeprom (EEPROM_CRASH_REPORT_ADDR + a)) := by
  refine ⟨by decide, by decide, ?_⟩
  intro h
  have h1 := h (save_crash_dump CRASH_REASON_EXPLICIT erased) 0x33 0
    (by decide) (by decide) (by decide)
  revert h1
  decide

/-- C5, amended: what each path of `main` does to the store.  One pass of
the command loop leaves the whole store unchanged when no byte is received
and for every received byte other than `'2'` and `'3'` (for `'1'` up to the
loop in which it hangs); for `'2'` the store is the one `save_crash_dump`
with reason `CRASH_REASON_EXPLICIT` leaves; for `'3'` (`clear_crash_flag`)
the sentinel byte becomes `CRASH_FLAG_CLEAR` and every other byte is
unchanged.  The boot part of `main` clears the sentinel byte when the load
reports a valid record and otherwise leaves the store unchanged. -/
theorem command_loop_frame (st : Machine) (input : Nat) :
    (main_loop_body (some input) st).state.eeprom =
      (if input = 0x32 then (save_crash_dump CRASH_REASON_EXPLICIT st).eeprom
      else if input = 0x33 then
        fun a => if a = EEPROM_CRASH_REPORT_ADDR then CRASH_FLAG_CLEAR else st.eeprom a
      else st.eeprom) ∧
    (main_loop_body none st).state.eeprom = st.eeprom ∧
    (main_boot st).eeprom =
      (if (load_crash_report st).1 = 1 then
        fun a => if a = EEPROM_CRASH_REPORT_ADDR then CRASH_FLAG_CLEAR else st.eeprom a
      else st.eeprom) := by
  refine ⟨?_, rfl, ?_⟩
  · rw [main_loop_body_eeprom input st]
    rfl
  · rw [main_boot_eeprom, load_crash_report_ret]
    by_cases h : st.eeprom 0 = 0xDE
    · simp only [h, if_true]
      rfl
    · simp only [h, if_false]
      rw [if_neg (by decide)]

/-! ## Interrupt masking during capture -/

/-- C10, evaluated on the code: for every reason and machine,
`save_crash_dump` appends exactly the events below.  Each of the five
`EEPROM_write` calls ends with `sei`, so the window from the first byte
write to the fifth contains `sei`, the flag is set right after the first
byte write (after the first four events, and in the machine on entry to the
second `EEPROM_write`), and the flag is set when `save_crash_dump` returns
although the function itself never executes `sei`. -/
theorem save_crash_dump_unmasks_between_writes (reason : Nat) (st : Machine) :
    save_crash_dump_events reason st =
      [ Event.cli,
        Event.cli, Event.eeprom_write 0 0xDE, Event.sei,
        Event.cli, Event.eeprom_write 1 (reason % 256), Event.sei,
        Event.cli, Event.eeprom_write 2 ((get_stack_pointer st &&& 0xFF) % 256), Event.sei,
        Event.cli, Event.eeprom_write 3 ((get_stack_pointer st >>> 8) % 256), Event.sei,
        Event.cli, Event.eeprom_write 4 (st.MCUSR % 256), Event.sei ] ∧
    Event.sei ∈ write_window (save_crash_dump_events reason st) ∧
    iflag_after st.SREG_I ((save_crash_dump_events reason st).take 4) = true ∧
    (EEPROM_write (EEPROM_CRASH_REPORT_ADDR + 0) CRASH_FLAG_SET (cli st)).SREG_I = true ∧
    (save_crash_dump reason st).SREG_I = true := by
  have e : save_crash_dump_events reason st =
      [ Event.cli,
        Event.cli, Event.eeprom_write 0 0xDE, Event.sei,
        Event.cli, Event.eeprom_write 1 (reason % 256), Event.sei,
        Event.cli, Event.eeprom_write 2 ((get_stack_pointer st &&& 0xFF) % 256), Event.sei,
        Event.cli, Event.eeprom_write 3 ((get_stack_pointer st >>> 8) % 256), Event.sei,
        Event.cli, Event.eeprom_write 4 (st.MCUSR % 256), Event.sei ] := by
    unfold save_crash_dump_events
    rw [save_crash_dump_trace, List.drop_left]
  refine ⟨e, ?_, ?_, rfl, rfl⟩
  · rw [e]
    simp [write_window, is_eeprom_write]
  · rw [e]
    rfl

end CrashReporter
